import Mathlib

/-!
# Verification of `jai_remote_acp_persona`

A shallow embedding of the connection/session lifecycle code of the
`jai-remote-acp-persona` repository (files `remote_acp_client.py`,
`remote_acp_persona.py`, `example_persona.py`), together with theorems
settling the specification claims about it.

Python strings are modelled as `List Char`; Python exceptions as a small
inductive of the exception classes this code can raise or that the spec
names, with Python's builtin subclass relation.  The asynchronous parts
(class-level memoized client future, per-instance session future) are
modelled as an explicit state machine over future identifiers: since no
`await` occurs inside `__init__`, each construction is a single atomic
step of the cooperative event loop, so interleavings cannot split it.
Teardown (`close`, `shutdown`/`_shutdown`) is modelled as an event-trace
semantics so that ordering ("waits for the pending connection before
closing the transport") and error propagation are expressible.
-/

namespace JaiRemoteAcp

/-! ## Python string primitives (`str.strip`, `str.replace`, `str.startswith`) -/

/-- Python `str.isspace` set for the characters Python's `strip()` removes
(ASCII whitespace; the code never feeds non-ASCII whitespace). -/
def pyIsSpace (c : Char) : Bool :=
  c = ' ' || c = '\t' || c = '\n' || c = '\x0d' || c = '\x0b' || c = '\x0c'

/-- Leading-whitespace removal, as in Python `str.lstrip()`. -/
def pyLstrip (l : List Char) : List Char :=
  l.dropWhile pyIsSpace

/-- Trailing-whitespace removal, as in Python `str.rstrip()`. -/
def pyRstrip (l : List Char) : List Char :=
  ((l.reverse).dropWhile pyIsSpace).reverse

/-- Python `str.strip()`: remove leading and trailing whitespace. -/
def pyStrip (l : List Char) : List Char :=
  pyRstrip (pyLstrip l)

/-- Scanner for Python `str.replace(old, new)`, with an explicit step
counter so the recursion is structural (every step consumes at least
one character, so `fuel = l.length` steps always suffice — see
`pyReplaceAux_congr`).  On a match of a non-empty `old` it emits `new`
and skips past the matched occurrence; otherwise it keeps one character
and continues. -/
def pyReplaceAux (old new : List Char) : Nat → List Char → List Char
  | _, [] => []
  | 0, l => l
  | fuel + 1, h :: t =>
    if !old.isEmpty && old.isPrefixOf (h :: t) then
      new ++ pyReplaceAux old new fuel ((h :: t).drop old.length)
    else
      h :: pyReplaceAux old new fuel t

/-- Python `str.replace(old, new)` for a non-empty `old`: scan left to
right, replacing each (leftmost, non-overlapping) occurrence of `old` by
`new`.  The code only ever calls it with `old = "@" + mention_name`,
which is non-empty; for `old = []` this model leaves the string
unchanged, a case the embedding never uses. -/
def pyReplace (l old new : List Char) : List Char :=
  pyReplaceAux old new l.length l

/-- Python `str.startswith(p)`. -/
def pyStartswith (l p : List Char) : Bool :=
  p.isPrefixOf l

/-- Whether `pat` occurs as a contiguous substring of the second list
(Python `pat in l`). -/
def pyOccurs (pat : List Char) : List Char → Bool
  | [] => pat.isEmpty
  | h :: t => pat.isPrefixOf (h :: t) || pyOccurs pat t

/-! ## Python exceptions -/

/-- The Python exception classes this code raises or the spec names. -/
inductive PyExcClass where
  | valueError
  | osError
  | connectionError
  | runtimeError
  | baseException
deriving DecidableEq, Repr

/-- Python's builtin subclass relation, restricted to the classes above
(reflexive; `ConnectionError` is a subclass of `OSError`; all are
subclasses of `BaseException`; `ValueError` is *not* a subclass of
`ConnectionError` nor vice versa). -/
def PyExcClass.isSubclassOf : PyExcClass → PyExcClass → Bool
  | c, d =>
    c = d ||
    (c = .connectionError && d = .osError) ||
    d = .baseException

/-- A raised Python exception: its class and message. -/
structure PyErr where
  cls : PyExcClass
  msg : List Char
deriving DecidableEq, Repr

/-! ## `RemoteAcpClient.__init__` — endpoint validation

Embeds the validation prologue of `RemoteAcpClient.__init__`
(`remote_acp_client.py`, lines 34–39):

```
if not remote_url or not remote_url.strip():
    raise ValueError("remote_url cannot be empty")
if not (remote_url.startswith("ws://") or remote_url.startswith("wss://")):
    raise ValueError("remote_url must start with ws:// or wss://")
```
-/

/-- The synchronous URL validation at the top of
`RemoteAcpClient.__init__`.  `Except.error e` models `raise e`. -/
def validateRemoteUrl (remote_url : List Char) : Except PyErr Unit :=
  if remote_url = [] || pyStrip remote_url = [] then
    .error ⟨.valueError, "remote_url cannot be empty".data⟩
  else if !(pyStartswith remote_url "ws://".data || pyStartswith remote_url "wss://".data) then
    .error ⟨.valueError, "remote_url must start with ws:// or wss://".data⟩
  else
    .ok ()

/-- Observable steps of `RemoteAcpClient.__init__`.  `startConnTask`
marks `event_loop.create_task(self._init_connection())`, the only point
where a network attempt is set in motion. -/
inductive InitEv where
  | raiseErr (e : PyErr)
  | startConnTask
  | initDone
deriving DecidableEq, Repr

/-- Trace of `RemoteAcpClient.__init__`: validation runs first and
synchronously; only when it passes are the instance fields set and the
connection task (network attempt) started.  There is no suspension
point anywhere in `__init__`. -/
def clientInitTrace (remote_url : List Char) : List InitEv :=
  match validateRemoteUrl remote_url with
  | .error e => [.raiseErr e]
  | .ok _ => [.startConnTask, .initDone]

/-! ## `RemoteAcpPersona.__init__` — the class-level memoized client future

Embeds the lifecycle bookkeeping of `RemoteAcpPersona.__init__`
(`remote_acp_persona.py`, lines 40–62).  Persona subclasses are
identified by a `Nat`; futures created by `event_loop.create_task` are
identified by the `Nat` at which the loop's task counter stood.  Since
`__init__` contains no `await`, each construction runs to completion
atomically on the single event loop, so even "concurrent" constructions
are an interleaving of these atomic steps. -/

/-- The event-loop-level state the persona constructor reads and
writes: which subclass already stores a `_client_future` in its own
`__dict__` (`none` = unset or `None`), the loop's next fresh task id,
and operation counts used to state the claims. -/
structure SysState where
  /-- `cls.__dict__['_client_future']` per subclass: `some f` when the
  class attribute is set (directly on that class) to the task `f`. -/
  classClientFut : Nat → Option Nat
  /-- Next fresh task id handed out by `event_loop.create_task`. -/
  nextFut : Nat
  /-- How many `_init_client` tasks (each of which constructs one
  `RemoteAcpClient`, hence starts one connection handshake) have been
  started for each subclass. -/
  clientInits : Nat → Nat
  /-- How many `_init_client_session` tasks (each issuing one
  `createSession` RPC) have been started in total. -/
  sessionInits : Nat

/-- The loop state before any persona is constructed. -/
def SysState.initial : SysState :=
  ⟨fun _ => none, 0, fun _ => 0, 0⟩

/-- A constructed persona instance: its subclass and the session future
stored in `self._client_session_future`.  The instance does not store a
client future of its own — `get_client` reads the class attribute. -/
structure Instance where
  cls : Nat
  sessionFut : Nat
deriving DecidableEq, Repr

/-- One atomic run of `RemoteAcpPersona.__init__` for subclass `c`:
if `_client_future` is not set directly on `c` (or is `None`), start
the `_init_client` task and memoize it on `c`; then unconditionally
start this instance's `_init_client_session` task. -/
def construct (c : Nat) (st : SysState) : Instance × SysState :=
  match st.classClientFut c with
  | some _ =>
    -- `_client_future` already memoized on this class: only the
    -- session task is created (one fresh task id).
    (⟨c, st.nextFut⟩,
      { st with nextFut := st.nextFut + 1, sessionInits := st.sessionInits + 1 })
  | none =>
    -- First construction for this class: the `_init_client` task gets
    -- id `st.nextFut` and is memoized on the class; the session task
    -- gets the next id.
    (⟨c, st.nextFut + 1⟩,
      { classClientFut := fun d => if d = c then some st.nextFut else st.classClientFut d
        nextFut := st.nextFut + 2
        clientInits := fun d => if d = c then st.clientInits d + 1 else st.clientInits d
        sessionInits := st.sessionInits + 1 })

/-- `get_client`: awaits `self.__class__._client_future`, i.e. resolves
the class-level future in the current state. -/
def getClient (inst : Instance) (st : SysState) : Option Nat :=
  st.classClientFut inst.cls

/-- `get_session`: awaits `self._client_session_future`, the future
stored on the instance at construction; awaiting mutates nothing, so
the model returns the unchanged state alongside the future's identity. -/
def getSession (inst : Instance) (st : SysState) : Nat × SysState :=
  (inst.sessionFut, st)

/-- Construct one instance of each listed subclass in order, returning
the instances and the final state. -/
def constructAll : List Nat → SysState → List Instance × SysState
  | [], st => ([], st)
  | c :: cs, st =>
    ((construct c st).1 :: (constructAll cs (construct c st).2).1,
      (constructAll cs (construct c st).2).2)

/-- Construct `n` instances of subclass `c`. -/
def constructN (c n : Nat) (st : SysState) : List Instance × SysState :=
  constructAll (List.replicate n c) st

/-! ## `process_message` — mention stripping (`remote_acp_persona.py`, 99–114) -/

/-- The prompt forwarded by `RemoteAcpPersona.process_message`:
`message.body.replace("@" + self.as_user().mention_name, "").strip()`. -/
def processMessagePrompt (body mentionName : List Char) : List Char :=
  pyStrip (pyReplace body ('@' :: mentionName) [])

/-! ## `ExampleRemotePersona.__init__` — endpoint selection
(`example_persona.py`, 24–27) -/

/-- `os.environ.get("ACP_SERVER_URL", "ws://localhost:8080/ws")`:
the argument is the value of the `ACP_SERVER_URL` environment variable
when set, `none` when unset. -/
def resolveServerUrl (acpServerUrl : Option (List Char)) : List Char :=
  acpServerUrl.getD "ws://localhost:8080/ws".data

/-! ## Teardown — `RemoteAcpClient.close` and `RemoteAcpPersona.shutdown`

Event-trace semantics of the close path.  `close`
(`remote_acp_client.py`, 99–107) and `_shutdown`
(`remote_acp_persona.py`, 139–153) are straight-line `async` code whose
only branching is on whether awaited calls raise, whether
`_connection_context` is set, and the `try/except` blocks; the model
makes every await's outcome an explicit input and records the
observable actions in order. -/

/-- Observable teardown events.  `c*` events belong to
`RemoteAcpClient.close`, `s*` events to `RemoteAcpPersona._shutdown`. -/
inductive TEv where
  | cAwaitConnFut   -- `conn = await self._connection_future`
  | cExitContext    -- `await self._connection_context.__aexit__(...)` (the transport close call)
  | cLogClosed      -- `logger.info("Closed connection ...")`
  | cLogCloseError  -- `logger.error("Error closing connection: ...")`
  | sLogClosing     -- `self.log.info("Closing remote ACP client ...")`
  | sAwaitClient    -- `client = await self.get_client()`
  | sAwaitConn      -- `conn = await client.get_connection()`
  | sConnClose      -- `await conn.close()` (the ACP connection close call)
  | sLogCleanupError  -- `self.log.error("Error during connection cleanup: ...")`
  | sLogCompleted   -- `self.log.info("Completed closing ...")`
deriving DecidableEq, Repr

/-- `RemoteAcpClient.close()`: given whether `_connection_context` is
set, the outcome of awaiting `_connection_future`, and the outcome of
`__aexit__`, returns the events performed and the exception escaping
`close` (the `try/except Exception` catches every modelled error, so
the escape is always `none`). -/
def clientClose (ctxSet : Bool) (connFutRes aexitRes : Except PyErr Unit) :
    List TEv × Option PyErr :=
  if ctxSet then
    match connFutRes with
    | .error _ => ([.cAwaitConnFut, .cLogCloseError], none)
    | .ok _ =>
      match aexitRes with
      | .error _ => ([.cAwaitConnFut, .cExitContext, .cLogCloseError], none)
      | .ok _ => ([.cAwaitConnFut, .cExitContext, .cLogClosed], none)
  else
    ([], none)

/-- The awaited outcomes `_shutdown` can observe: the class client
future (it holds the `RemoteAcpClient.__init__` outcome), the
connection future (awaited both by `client.get_connection()` and inside
`client.close()` — one future, one outcome), the ACP connection's own
`close()`, whether `client._connection_context` is set, and the
`__aexit__` outcome. -/
structure ShutdownEnv where
  clientRes : Except PyErr Unit
  connRes : Except PyErr Unit
  connCloseRes : Except PyErr Unit
  hasCtx : Bool
  aexitRes : Except PyErr Unit

/-- The `_shutdown` coroutine: events performed and the exception
escaping the coroutine (an uncaught exception in this fire-and-forget
task).  Only the `await client.close()` call sits inside a
`try/except`; `await self.get_client()`, `await
client.get_connection()` and `await conn.close()` are unguarded. -/
def shutdownRun (env : ShutdownEnv) : List TEv × Option PyErr :=
  match env.clientRes with
  | .error e => ([.sLogClosing, .sAwaitClient], some e)
  | .ok _ =>
    match env.connRes with
    | .error e => ([.sLogClosing, .sAwaitClient, .sAwaitConn], some e)
    | .ok _ =>
      match env.connCloseRes with
      | .error e => ([.sLogClosing, .sAwaitClient, .sAwaitConn, .sConnClose], some e)
      | .ok _ =>
        let pre : List TEv := [.sLogClosing, .sAwaitClient, .sAwaitConn, .sConnClose]
        if env.hasCtx then
          let c := clientClose env.hasCtx env.connRes env.aexitRes
          match c.2 with
          | some _ => (pre ++ c.1 ++ [.sLogCleanupError, .sLogCompleted], none)
          | none => (pre ++ c.1 ++ [.sLogCompleted], none)
        else
          (pre ++ [.sLogCompleted], none)

/-- `RemoteAcpPersona.shutdown()`: synchronously schedules `_shutdown`
as a task and returns.  The first component is what the caller of
`shutdown` observes (`create_task` returns without raising); the second
is the background task's run. -/
def shutdownCall (env : ShutdownEnv) : Except PyErr Unit × (List TEv × Option PyErr) :=
  (.ok (), shutdownRun env)

/-! ## Auxiliary definitions for the claim statements -/

/-- A well-formedness invariant of the event-loop state: every memoized
class-level client future is an already-allocated task id, and distinct
subclasses never share a memoized client future.  It holds of the
initial state (`sound_initial`) and is preserved by construction
(`construct_sound`). -/
def Sound (st : SysState) : Prop :=
  (∀ d f, st.classClientFut d = some f → f < st.nextFut) ∧
  (∀ d d' f f', d ≠ d' → st.classClientFut d = some f → st.classClientFut d' = some f' →
    f ≠ f')

/-- Concrete teardown scenario: client and connection futures resolved,
`conn.close()` raises `RuntimeError("boom")`, the connection context is
set, `__aexit__` would succeed. -/
def connCloseBoomEnv : ShutdownEnv :=
  ⟨.ok (), .ok (), .error ⟨.runtimeError, "boom".data⟩, true, .ok ()⟩

/-! ## Lemmas about the Python string primitives -/

/-- `pyReplaceAux` does not depend on the step counter once it is at
least the length of the scanned list. -/
lemma pyReplaceAux_congr (old new : List Char) :
    ∀ fuel fuel' l, l.length ≤ fuel → l.length ≤ fuel' →
      pyReplaceAux old new fuel l = pyReplaceAux old new fuel' l := by
  intro fuel
  induction fuel with
  | zero =>
    intro fuel' l hl _
    have hnil : l = [] := List.eq_nil_of_length_eq_zero (Nat.le_zero.mp hl)
    subst hnil
    cases fuel' <;> rfl
  | succ f ih =>
    intro fuel' l hl hl'
    cases l with
    | nil => cases fuel' <;> rfl
    | cons a t =>
      cases fuel' with
      | zero => simp at hl'
      | succ g =>
        simp only [pyReplaceAux]
        by_cases hc : (!old.isEmpty && old.isPrefixOf (a :: t)) = true
        · rw [if_pos hc, if_pos hc]
          have hone : 1 ≤ old.length := by
            cases old with
            | nil => simp at hc
            | cons _ _ => simp
          have hlt : ((a :: t).drop old.length).length ≤ f := by
            simp only [List.length_drop, List.length_cons]
            simp only [List.length_cons] at hl
            omega
          have hlt' : ((a :: t).drop old.length).length ≤ g := by
            simp only [List.length_drop, List.length_cons]
            simp only [List.length_cons] at hl'
            omega
          rw [ih _ _ hlt hlt']
        · rw [if_neg hc, if_neg hc]
          have ht : t.length ≤ f := by simp only [List.length_cons] at hl; omega
          have ht' : t.length ≤ g := by simp only [List.length_cons] at hl'; omega
          rw [ih _ _ ht ht']

/-- A replace whose pattern is a prefix of the input removes that
prefix occurrence first. -/
lemma pyReplace_prefix_match (old rest new : List Char) (h : old ≠ []) :
    pyReplace (old ++ rest) old new = new ++ pyReplace rest old new := by
  cases old with
  | nil => exact absurd rfl h
  | cons o ot =>
    have hpre : (o :: ot).isPrefixOf ((o :: ot) ++ rest) = true := by
      rw [List.isPrefixOf_iff_prefix]
      exact List.prefix_append _ _
    show pyReplaceAux (o :: ot) new ((o :: ot) ++ rest).length ((o :: ot) ++ rest) = _
    simp only [List.cons_append, List.length_cons] at hpre ⊢
    simp only [pyReplaceAux]
    rw [if_pos (by simp only [List.isEmpty_cons, Bool.not_false, Bool.true_and]; exact hpre)]
    have hdrop : (o :: (ot ++ rest)).drop (o :: ot).length = rest := by
      rw [← List.cons_append]
      exact List.drop_left _ _
    rw [hdrop]
    congr 1
    exact pyReplaceAux_congr _ _ _ _ _ (by simp) le_rfl

lemma pyReplaceAux_of_not_occurs (old new : List Char) :
    ∀ fuel l, l.length ≤ fuel → pyOccurs old l = false →
      pyReplaceAux old new fuel l = l := by
  intro fuel
  induction fuel with
  | zero =>
    intro l hl _
    have hnil : l = [] := List.eq_nil_of_length_eq_zero (Nat.le_zero.mp hl)
    subst hnil
    rfl
  | succ f ih =>
    intro l hl hocc
    cases l with
    | nil => rfl
    | cons a t =>
      have h2 : old.isPrefixOf (a :: t) = false ∧ pyOccurs old t = false := by
        simpa [pyOccurs, Bool.or_eq_false_iff] using hocc
      simp only [pyReplaceAux]
      rw [if_neg (by simp [h2.1])]
      have ht : t.length ≤ f := by simp only [List.length_cons] at hl; omega
      rw [ih _ ht h2.2]

/-- Replacing a pattern that does not occur leaves the string
unchanged. -/
lemma pyReplace_of_not_occurs (l old new : List Char) (h : pyOccurs old l = false) :
    pyReplace l old new = l :=
  pyReplaceAux_of_not_occurs old new _ l le_rfl h

/-- `strip` output has no trailing whitespace. -/
lemma pyRstrip_pyStrip (l : List Char) : pyRstrip (pyStrip l) = pyStrip l := by
  show List.rdropWhile pyIsSpace (List.rdropWhile pyIsSpace (pyLstrip l)) = _
  exact List.rdropWhile_idempotent _ _

/-- `strip` output has no leading whitespace. -/
lemma pyLstrip_pyStrip (l : List Char) : pyLstrip (pyStrip l) = pyStrip l := by
  have hmfix : List.dropWhile pyIsSpace (List.dropWhile pyIsSpace l) =
      List.dropWhile pyIsSpace l := List.dropWhile_idempotent _ _
  show List.dropWhile pyIsSpace (List.rdropWhile pyIsSpace (List.dropWhile pyIsSpace l)) =
    List.rdropWhile pyIsSpace (List.dropWhile pyIsSpace l)
  obtain ⟨t, ht⟩ := List.rdropWhile_prefix pyIsSpace (List.dropWhile pyIsSpace l)
  cases hr : List.rdropWhile pyIsSpace (List.dropWhile pyIsSpace l) with
  | nil => rfl
  | cons a b =>
    rw [hr] at ht
    have hm2 : List.dropWhile pyIsSpace l = a :: (b ++ t) := by
      rw [← ht]
      simp [List.cons_append]
    have ha : pyIsSpace a = false := by
      by_cases hcon : pyIsSpace a = true
      · rw [hm2, List.dropWhile_cons_of_pos hcon] at hmfix
        have hlen := congrArg List.length hmfix
        have hle := (List.dropWhile_sublist (l := b ++ t) pyIsSpace).length_le
        simp only [List.length_cons] at hlen
        omega
      · simpa using hcon
    rw [List.dropWhile_cons_of_neg (by simp [ha])]

/-- Stripping an all-whitespace string yields the empty string. -/
lemma pyStrip_of_all_space (s : List Char) (hws : ∀ c ∈ s, pyIsSpace c = true) :
    pyStrip s = [] := by
  unfold pyStrip pyLstrip pyRstrip
  rw [List.dropWhile_eq_nil_iff.mpr hws]
  rfl

/-! ## Lemmas about the construction state machine -/

/-- A constructed instance remembers its subclass. -/
lemma construct_cls (c : Nat) (st : SysState) : (construct c st).1.cls = c := by
  cases h : st.classClientFut c <;> simp [construct, h]

/-- Constructing an instance whose subclass already memoizes a client
future starts only the session task. -/
lemma construct_set {c : Nat} {st : SysState} {f : Nat} (h : st.classClientFut c = some f) :
    construct c st =
      (⟨c, st.nextFut⟩,
        { st with nextFut := st.nextFut + 1, sessionInits := st.sessionInits + 1 }) := by
  unfold construct
  rw [h]

/-- The first construction for a subclass memoizes a fresh client task
and starts a session task. -/
lemma construct_unset {c : Nat} {st : SysState} (h : st.classClientFut c = none) :
    construct c st =
      (⟨c, st.nextFut + 1⟩,
        { classClientFut := fun d => if d = c then some st.nextFut else st.classClientFut d
          nextFut := st.nextFut + 2
          clientInits := fun d => if d = c then st.clientInits d + 1 else st.clientInits d
          sessionInits := st.sessionInits + 1 }) := by
  unfold construct
  rw [h]

/-- Once a subclass's client future is memoized, further constructions
of that subclass change neither the memoized futures nor the client
initialization counts, and every instance they produce belongs to that
subclass. -/
lemma constructAll_replicate_pres {c f : Nat} :
    ∀ (m : Nat) (st : SysState), st.classClientFut c = some f →
      (constructAll (List.replicate m c) st).2.classClientFut = st.classClientFut ∧
      (constructAll (List.replicate m c) st).2.clientInits = st.clientInits ∧
      ∀ i ∈ (constructAll (List.replicate m c) st).1, i.cls = c := by
  intro m
  induction m with
  | zero => exact fun st _ => ⟨rfl, rfl, by simp [constructAll]⟩
  | succ k ih =>
    intro st h
    rw [List.replicate_succ]
    simp only [constructAll]
    have h' : ((construct c st).2).classClientFut c = some f := by
      rw [construct_set h]
      exact h
    obtain ⟨e1, e2, e3⟩ := ih _ h'
    refine ⟨e1.trans ?_, e2.trans ?_, ?_⟩
    · rw [construct_set h]
    · rw [construct_set h]
    · intro i hi
      simp only [List.mem_cons] at hi
      rcases hi with hi | hi
      · rw [hi]
        exact construct_cls c st
      · exact e3 i hi

lemma sound_initial : Sound SysState.initial := by
  constructor
  · intro d f h
    simp [SysState.initial] at h
  · intro d d' f f' _ h
    simp [SysState.initial] at h

lemma construct_sound (c : Nat) (st : SysState) (hs : Sound st) : Sound (construct c st).2 := by
  obtain ⟨hb, hi⟩ := hs
  cases h : st.classClientFut c with
  | some f =>
    rw [construct_set h]
    exact ⟨fun d g hg => Nat.lt_succ_of_lt (hb d g hg), hi⟩
  | none =>
    rw [construct_unset h]
    constructor
    · intro d g hg
      dsimp only at hg ⊢
      by_cases hdc : d = c
      · rw [if_pos hdc] at hg
        have := Option.some.inj hg
        omega
      · rw [if_neg hdc] at hg
        have := hb d g hg
        omega
    · intro d d' g g' hdd hg hg'
      dsimp only at hg hg'
      by_cases hdc : d = c <;> by_cases hdc' : d' = c
      · exact absurd (hdc.trans hdc'.symm) hdd
      · rw [if_pos hdc] at hg
        rw [if_neg hdc'] at hg'
        have h1 := hb d' g' hg'
        have h2 := Option.some.inj hg
        omega
      · rw [if_neg hdc] at hg
        rw [if_pos hdc'] at hg'
        have h1 := hb d g hg
        have h2 := Option.some.inj hg'
        omega
      · rw [if_neg hdc] at hg
        rw [if_neg hdc'] at hg'
        exact hi d d' g g' hdd hg hg'

/-- After constructing an instance of a subclass, that subclass
memoizes some client future. -/
lemma construct_self_isSome (c : Nat) (st : SysState) :
    ∃ f, (construct c st).2.classClientFut c = some f := by
  cases h : st.classClientFut c with
  | some f =>
    refine ⟨f, ?_⟩
    rw [construct_set h]
    exact h
  | none =>
    refine ⟨st.nextFut, ?_⟩
    rw [construct_unset h]
    dsimp only
    rw [if_pos rfl]

/-- Constructing one subclass never touches another subclass's memoized
client future. -/
lemma construct_pres_other {c d : Nat} {st : SysState} (hdc : d ≠ c) :
    (construct c st).2.classClientFut d = st.classClientFut d := by
  cases h : st.classClientFut c with
  | some f => rw [construct_set h]
  | none =>
    rw [construct_unset h]
    dsimp only
    rw [if_neg hdc]

/-! ## Claim theorems -/

/-- C1: for every persona subclass and every `n ≥ 1` of constructed
instances of that subclass, exactly one `_init_client` task (hence
exactly one client/connection handshake) is started for the subclass,
and every instance's `get_client()` resolves the same memoized
class-level future, i.e. yields the identical shared client.
Constructions are atomic steps of the single event loop because
`__init__` contains no suspension point, so this also covers
"concurrent" construction. -/
theorem client_memoized_once_per_subclass (c n : Nat) (h : 1 ≤ n) :
    (constructN c n SysState.initial).2.clientInits c = 1 ∧
    ∃ f, ∀ i ∈ (constructN c n SysState.initial).1,
      getClient i (constructN c n SysState.initial).2 = some f := by
  obtain ⟨m, rfl⟩ : ∃ m, n = m + 1 := ⟨n - 1, by omega⟩
  unfold constructN
  rw [List.replicate_succ]
  simp only [constructAll]
  have h0 : SysState.initial.classClientFut c = none := rfl
  have hset : (construct c SysState.initial).2.classClientFut c = some 0 := by
    rw [construct_unset h0]
    simp [SysState.initial]
  obtain ⟨e1, e2, e3⟩ := constructAll_replicate_pres m _ hset
  constructor
  · show (constructAll (List.replicate m c)
      (construct c SysState.initial).2).2.clientInits c = 1
    rw [e2, construct_unset h0]
    simp [SysState.initial]
  · refine ⟨0, ?_⟩
    intro i hi
    simp only [List.mem_cons] at hi
    unfold getClient
    show (constructAll (List.replicate m c)
      (construct c SysState.initial).2).2.classClientFut i.cls = some 0
    rw [e1]
    rcases hi with hi | hi
    · rw [hi, construct_cls]
      exact hset
    · rw [e3 i hi]
      exact hset

/-- Witness for C1 at subclass `0` and `n = 3`. -/
theorem client_memoized_once_per_subclass_witness :
    1 ≤ 3 ∧
    ((constructN 0 3 SysState.initial).2.clientInits 0 = 1 ∧
      ∃ f, ∀ i ∈ (constructN 0 3 SysState.initial).1,
        getClient i (constructN 0 3 SysState.initial).2 = some f) :=
  ⟨by decide, client_memoized_once_per_subclass 0 3 (by decide)⟩

/-- C2 counterexample: at the malformed endpoint `""`,
`RemoteAcpClient` construction raises
`ValueError("remote_url cannot be empty")`, and no `ConnectionError`-class
exception is raised (`ValueError` is not a subclass of
`ConnectionError` in Python's exception hierarchy). -/
theorem empty_url_valueError_not_connectionError :
    clientInitTrace "".data = [.raiseErr ⟨.valueError, "remote_url cannot be empty".data⟩] ∧
    ¬ ∃ e : PyErr, clientInitTrace "".data = [.raiseErr e] ∧
      e.cls.isSubclassOf .connectionError = true := by
  refine ⟨rfl, ?_⟩
  rintro ⟨e, he, hsub⟩
  have h0 : clientInitTrace "".data =
      [.raiseErr ⟨.valueError, "remote_url cannot be empty".data⟩] := rfl
  rw [h0] at he
  simp only [List.cons.injEq, InitEv.raiseErr.injEq, and_true] at he
  rw [← he] at hsub
  simp [PyExcClass.isSubclassOf] at hsub

/-- C2 (amended): for every malformed endpoint URL (empty,
whitespace-only, or a scheme other than `ws://`/`wss://`),
`RemoteAcpClient` construction fails synchronously with a `ValueError`
and no connection task — hence no network attempt — is started. -/
theorem malformed_url_fails_sync_with_valueError (url : List Char)
    (h : url = [] ∨ pyStrip url = [] ∨
      (pyStartswith url "ws://".data = false ∧ pyStartswith url "wss://".data = false)) :
    (∃ m, clientInitTrace url = [.raiseErr ⟨.valueError, m⟩]) ∧
    InitEv.startConnTask ∉ clientInitTrace url := by
  have hmain : ∃ m, validateRemoteUrl url = .error ⟨.valueError, m⟩ := by
    unfold validateRemoteUrl
    by_cases h1 : url = []
    · exact ⟨_, by rw [if_pos (by simp [h1])]⟩
    · by_cases h2 : pyStrip url = []
      · exact ⟨_, by rw [if_pos (by simp [h2])]⟩
      · rcases h with h | h | h
        · exact absurd h h1
        · exact absurd h h2
        · refine ⟨"remote_url must start with ws:// or wss://".data, ?_⟩
          rw [if_neg (by simp [h1, h2]), if_pos (by simp [h.1, h.2])]
  obtain ⟨m, hm⟩ := hmain
  unfold clientInitTrace
  rw [hm]
  exact ⟨⟨m, rfl⟩, by simp⟩

/-- Witness for the amended C2 at the malformed endpoint `"http://x"`. -/
theorem malformed_url_fails_sync_with_valueError_witness :
    ("http://x".data = [] ∨ pyStrip "http://x".data = [] ∨
      (pyStartswith "http://x".data "ws://".data = false ∧
        pyStartswith "http://x".data "wss://".data = false)) ∧
    ((∃ m, clientInitTrace "http://x".data = [.raiseErr ⟨.valueError, m⟩]) ∧
      InitEv.startConnTask ∉ clientInitTrace "http://x".data) :=
  ⟨Or.inr (Or.inr ⟨by decide, by decide⟩),
    malformed_url_fails_sync_with_valueError "http://x".data
      (Or.inr (Or.inr ⟨by decide, by decide⟩))⟩

/-- C3 counterexample: when `conn.close()` raises
`RuntimeError("boom")` with everything else healthy, the exception
escapes the `_shutdown` coroutine uncaught and unlogged — neither the
cleanup-error log of `_shutdown` nor the close-error log of
`RemoteAcpClient.close` fires — refuting "every exception occurring
while closing the transport or connection is logged and suppressed"
(the `shutdown()` caller still observes a normal return, since the
failure happens in the fire-and-forget task). -/
theorem conn_close_error_escapes_shutdown_task :
    (shutdownRun connCloseBoomEnv).2 = some ⟨.runtimeError, "boom".data⟩ ∧
    TEv.sLogCleanupError ∉ (shutdownRun connCloseBoomEnv).1 ∧
    TEv.cLogCloseError ∉ (shutdownRun connCloseBoomEnv).1 ∧
    (shutdownCall connCloseBoomEnv).1 = .ok () :=
  ⟨rfl, by decide, by decide, rfl⟩

/-- C3 (amended): `shutdown()` itself never raises to its caller (it
only schedules the `_shutdown` task), and `RemoteAcpClient.close()`
logs and suppresses every exception of its own; but the background
`_shutdown` task terminates abnormally exactly when awaiting the
client, awaiting the connection, or `conn.close()` raises — such an
exception is not caught by this code. -/
theorem shutdown_and_close_error_policy (env : ShutdownEnv) :
    (shutdownCall env).1 = .ok () ∧
    (∀ (ctxSet : Bool) (connFutRes aexitRes : Except PyErr Unit),
      (clientClose ctxSet connFutRes aexitRes).2 = none) ∧
    ((shutdownRun env).2 = none ↔
      (env.clientRes = .ok () ∧ env.connRes = .ok () ∧ env.connCloseRes = .ok ())) := by
  refine ⟨rfl, ?_, ?_⟩
  · intro ctxSet connFutRes aexitRes
    cases ctxSet with
    | false => rfl
    | true =>
      cases connFutRes with
      | error e => rfl
      | ok u =>
        cases u
        cases aexitRes with
        | error e => rfl
        | ok v => rfl
  · obtain ⟨cr, nr, ccr, hc, ar⟩ := env
    cases cr with
    | error e => simp [shutdownRun]
    | ok u =>
      cases u
      cases nr with
      | error e => simp [shutdownRun]
      | ok v =>
        cases v
        cases ccr with
        | error e => simp [shutdownRun]
        | ok w =>
          cases w
          simp only [shutdownRun]
          cases hc with
          | false => simp
          | true => cases ar <;> simp [clientClose]

/-- C4: `process_message` strips the instance's own mention token: when
the body is `"@" + name` followed by any remainder in which the token
does not occur again, the forwarded prompt is exactly the stripped
remainder; in particular `"@bot do X"` with mention name `bot` forwards
`"do X"`. -/
theorem process_message_strips_own_mention :
    (∀ name rest : List Char, pyOccurs ('@' :: name) rest = false →
      processMessagePrompt (('@' :: name) ++ rest) name = pyStrip rest)
    ∧ processMessagePrompt "@bot do X".data "bot".data = "do X".data := by
  constructor
  · intro name rest hocc
    unfold processMessagePrompt
    rw [pyReplace_prefix_match _ _ _ (by simp)]
    rw [pyReplace_of_not_occurs _ _ _ hocc]
    rfl
  · decide

/-- Witness for C4 at mention name `alice` and body `"@alice hello"`. -/
theorem process_message_strips_own_mention_witness :
    pyOccurs ('@' :: "alice".data) " hello".data = false ∧
    processMessagePrompt (('@' :: "alice".data) ++ " hello".data) "alice".data =
      pyStrip " hello".data :=
  ⟨by decide,
    (process_message_strips_own_mention).1 "alice".data " hello".data (by decide)⟩

/-- C5: constructing a persona instance starts exactly one session task
(`_init_client_session`), the instance's session future is the one
fixed at construction, and every `get_session()`/`get_session_id()`
call awaits that same future, mutating nothing — so there is no
duplicate session creation and no path back to uninitialized. -/
theorem session_created_once_and_fixed (c : Nat) (st : SysState) :
    (construct c st).2.sessionInits = st.sessionInits + 1 ∧
    (∀ s : SysState, getSession (construct c st).1 s = ((construct c st).1.sessionFut, s)) ∧
    (∀ s s' : SysState,
      (getSession (construct c st).1 s).1 = (getSession (construct c st).1 s').1) := by
  refine ⟨?_, fun s => rfl, fun s s' => rfl⟩
  cases h : st.classClientFut c with
  | some f => rw [construct_set h]
  | none => rw [construct_unset h]

/-- C6: whenever `RemoteAcpClient.close()` closes the transport (the
`__aexit__` call on the connection context), the pending connection
future has already been awaited — and successfully resolved — at an
earlier point of the close sequence, so a close never races with an
in-flight handshake. -/
theorem close_waits_for_connection_before_transport_close
    (ctxSet : Bool) (connFutRes aexitRes : Except PyErr Unit)
    (h : TEv.cExitContext ∈ (clientClose ctxSet connFutRes aexitRes).1) :
    connFutRes = .ok () ∧
    ∃ i j : Nat, i < j ∧
      (clientClose ctxSet connFutRes aexitRes).1[i]? = some TEv.cAwaitConnFut ∧
      (clientClose ctxSet connFutRes aexitRes).1[j]? = some TEv.cExitContext := by
  cases ctxSet with
  | false => simp [clientClose] at h
  | true =>
    cases connFutRes with
    | error e => simp [clientClose] at h
    | ok u =>
      cases u
      cases aexitRes with
      | error e => exact ⟨rfl, 0, 1, by omega, rfl, rfl⟩
      | ok v =>
        cases v
        exact ⟨rfl, 0, 1, by omega, rfl, rfl⟩

/-- Witness for C6 in the healthy close scenario. -/
theorem close_waits_for_connection_before_transport_close_witness :
    TEv.cExitContext ∈ (clientClose true (.ok ()) (.ok ())).1 ∧
    ((.ok () : Except PyErr Unit) = .ok () ∧
      ∃ i j : Nat, i < j ∧
        (clientClose true (.ok ()) (.ok ())).1[i]? = some TEv.cAwaitConnFut ∧
        (clientClose true (.ok ()) (.ok ())).1[j]? = some TEv.cExitContext) :=
  ⟨by decide, close_waits_for_connection_before_transport_close true (.ok ()) (.ok ())
    (by decide)⟩

/-- C7: two different persona subclasses constructed one after the
other (from any well-formed loop state, in particular against the same
endpoint) end up with two distinct memoized client futures: neither
subclass's `get_client()` resolves to the other's client. -/
theorem distinct_subclasses_distinct_clients (st : SysState) (c1 c2 : Nat)
    (hs : Sound st) (hne : c1 ≠ c2) :
    ∃ f1 f2,
      getClient (construct c1 st).1 (construct c2 (construct c1 st).2).2 = some f1 ∧
      getClient (construct c2 (construct c1 st).2).1 (construct c2 (construct c1 st).2).2 =
        some f2 ∧
      f1 ≠ f2 := by
  obtain ⟨f1, hf1⟩ := construct_self_isSome c1 st
  obtain ⟨f2, hf2⟩ := construct_self_isSome c2 (construct c1 st).2
  have hs2 : Sound (construct c2 (construct c1 st).2).2 :=
    construct_sound _ _ (construct_sound _ _ hs)
  have hf1' : (construct c2 (construct c1 st).2).2.classClientFut c1 = some f1 := by
    rw [construct_pres_other hne]
    exact hf1
  refine ⟨f1, f2, ?_, ?_, ?_⟩
  · unfold getClient
    rw [construct_cls]
    exact hf1'
  · unfold getClient
    rw [construct_cls]
    exact hf2
  · exact hs2.2 c1 c2 f1 f2 hne hf1' hf2

/-- Witness for C7: subclasses `0` and `1` from the initial state. -/
theorem distinct_subclasses_distinct_clients_witness :
    Sound SysState.initial ∧ (0 : Nat) ≠ 1 ∧
    ∃ f1 f2,
      getClient (construct 0 SysState.initial).1
          (construct 1 (construct 0 SysState.initial).2).2 = some f1 ∧
      getClient (construct 1 (construct 0 SysState.initial).2).1
          (construct 1 (construct 0 SysState.initial).2).2 = some f2 ∧
      f1 ≠ f2 :=
  ⟨sound_initial, by decide,
    distinct_subclasses_distinct_clients SysState.initial 0 1 sound_initial (by decide)⟩

/-- C8: the example persona's endpoint is
`os.environ.get("ACP_SERVER_URL", "ws://localhost:8080/ws")`: the
default `ws://localhost:8080/ws` when the variable is unset, the
variable's value verbatim when set. -/
theorem acp_server_url_env_selection :
    resolveServerUrl none = "ws://localhost:8080/ws".data ∧
    ∀ v : List Char, resolveServerUrl (some v) = v :=
  ⟨rfl, fun _ => rfl⟩

/-- C9: for every message body and mention name, the forwarded prompt
has neither leading nor trailing whitespace (stripping it again on
either side changes nothing), including when the body contains no
mention token at all. -/
theorem forwarded_prompt_trimmed (body name : List Char) :
    pyLstrip (processMessagePrompt body name) = processMessagePrompt body name ∧
    pyRstrip (processMessagePrompt body name) = processMessagePrompt body name := by
  unfold processMessagePrompt
  exact ⟨pyLstrip_pyStrip _, pyRstrip_pyStrip _⟩

/-- C10: every non-empty, all-whitespace endpoint URL is rejected
synchronously with the same `ValueError("remote_url cannot be empty")`
as the empty string — reached before the scheme check — and no
connection task (network attempt) is started. -/
theorem whitespace_url_rejected_as_empty (s : List Char) (hne : s ≠ [])
    (hws : ∀ c ∈ s, pyIsSpace c = true) :
    validateRemoteUrl s = .error ⟨.valueError, "remote_url cannot be empty".data⟩ ∧
    clientInitTrace s = [.raiseErr ⟨.valueError, "remote_url cannot be empty".data⟩] ∧
    InitEv.startConnTask ∉ clientInitTrace s := by
  have hval : validateRemoteUrl s =
      .error ⟨.valueError, "remote_url cannot be empty".data⟩ := by
    unfold validateRemoteUrl
    rw [if_pos (by simp [pyStrip_of_all_space s hws])]
  refine ⟨hval, ?_, ?_⟩ <;> simp [clientInitTrace, hval]

/-- Witness for C10 at the three-space URL `"   "`. -/
theorem whitespace_url_rejected_as_empty_witness :
    ("   ".data ≠ [] ∧ ∀ c ∈ "   ".data, pyIsSpace c = true) ∧
    (validateRemoteUrl "   ".data =
        .error ⟨.valueError, "remote_url cannot be empty".data⟩ ∧
      clientInitTrace "   ".data =
        [.raiseErr ⟨.valueError, "remote_url cannot be empty".data⟩] ∧
      InitEv.startConnTask ∉ clientInitTrace "   ".data) :=
  ⟨⟨by decide, by decide⟩, whitespace_url_rejected_as_empty "   ".data (by decide) (by decide)⟩

end JaiRemoteAcp
